import Mathlib

/-!
# Typed client for the cluster-scoped `Mesh` resource

Shallow embedding of
* `apis/v1alpha2/mesh_types.go` (the `Mesh` data model), and
* `pkg/client/clientset/versioned/typed/apis/v1alpha2/mesh.go` (the nine client operations).

Every operation of `mesh.go` is a chain of builder calls on a `rest.Request` ended by
`Do(ctx)` (or `Watch(ctx)`).  The chain is embedded as a function that returns the request
record (`meshes.GetRequest`, ...), and the operation itself as a state-passing function that
hands that record to the executor.  The `rest` and `metav1` packages are not part of the
repository: the types the source only passes through are parameters (`Ext`), the ones whose
fields the source reads or writes are records, and the builder methods of `rest.Request`
are modelled from the library, with the checks they make on names and sub-resource segments
and the error they keep in the request.
-/

namespace GatewayAPI

/-! ## Machine integers and durations -/

/-- Two's-complement reduction of a mathematical integer to Go's `int64`. -/
def wrapInt64 (x : Int) : Int := (x + 2 ^ 63) % 2 ^ 64 - 2 ^ 63

/-- Range predicate of Go's `int64`. -/
def isInt64 (x : Int) : Prop := -(2 ^ 63) ≤ x ∧ x < 2 ^ 63

instance (x : Int) : Decidable (isInt64 x) := by unfold isInt64; infer_instance

/-- Go's `time.Duration`: an `int64` count of nanoseconds. -/
abbrev Duration := Int

/-- Constant `time.Second`. -/
def Second : Duration := 1000000000

/-- The conversion `time.Duration(x)` of an `int64` (both are 64-bit signed). -/
def Duration.ofInt64 (x : Int) : Duration := x

/-- Go's `*` on `time.Duration`: 64-bit signed multiplication, silent wrap-around. -/
def Duration.mul (a b : Duration) : Duration := wrapInt64 (a * b)

/-! ## Types declared outside the two source files -/

/-- Types of `k8s.io/apimachinery` and `k8s.io/client-go` that `mesh.go` only passes through,
never inspecting a field: taken as parameters. -/
structure Ext where
  /-- Go `context.Context`. -/
  Context : Type
  /-- Go `metav1.TypeMeta`. -/
  TypeMeta : Type
  /-- Go `metav1.ListMeta`. -/
  ListMeta : Type
  /-- Go `metav1.GetOptions`. -/
  GetOptions : Type
  /-- Go `metav1.CreateOptions`. -/
  CreateOptions : Type
  /-- Go `metav1.UpdateOptions`. -/
  UpdateOptions : Type
  /-- Go `metav1.DeleteOptions`. -/
  DeleteOptions : Type
  /-- Go `metav1.PatchOptions`. -/
  PatchOptions : Type
  /-- Go `types.PatchType`. -/
  PatchType : Type
  /-- Go `error` values (non-nil). -/
  Err : Type
  /-- Go `rest.Result`, what `Do(ctx)` returns. -/
  Result : Type
  /-- Go `watch.Interface`, what `Watch(ctx)` returns. -/
  WatchInterface : Type

/-- Modelled from the spec: `metav1.ListOptions` is declared outside the repository; the fields are the
ones `mesh.go` touches (`TimeoutSeconds`, a `*int64`, and `Watch`) and the ones the spec names
for List/Watch: label and field selectors, resource-version bookmarks, limit and continue. -/
structure ListOptions where
  LabelSelector : String
  FieldSelector : String
  Watch : Bool
  AllowWatchBookmarks : Bool
  ResourceVersion : String
  ResourceVersionMatch : String
  /-- Go `*int64`: `none` is the nil pointer. -/
  TimeoutSeconds : Option Int
  Limit : Int
  Continue : String
deriving DecidableEq

/-- Modelled from the spec: `metav1.ObjectMeta` is declared outside the repository; the spec names the
identity (`name`), the `resourceVersion` and the generation. `mesh.go` reads `Name`. -/
structure ObjectMeta where
  Name : String
  ResourceVersion : String
  Generation : Int
deriving DecidableEq

/-- Modelled from the spec: `metav1.ConditionStatus`, `status ∈ {True, False, Unknown}`. -/
inductive ConditionStatus where
  | ConditionTrue
  | ConditionFalse
  | ConditionUnknown
deriving DecidableEq

/-- Modelled from the spec: `metav1.Condition` is declared outside the repository; a record
`{type, status, reason, message, lastTransitionTime, observedGeneration}`. -/
structure Condition where
  /-- Go field `Type` (a reserved word here). -/
  Type_ : String
  Status : ConditionStatus
  ObservedGeneration : Int
  /-- Seconds since the epoch. -/
  LastTransitionTime : Int
  Reason : String
  Message : String
deriving DecidableEq

/-- Modelled from the spec: `GatewayController` is declared in another file of the package; an opaque
string naming the controller. -/
abbrev GatewayController := String

/-- Modelled from the spec: `ParametersReference` is declared in another file of the package; a
reference `(kind, name, optional namespace)`. -/
structure ParametersReference where
  Kind : String
  Name : String
  Namespace : Option String
deriving DecidableEq

/-! ## `mesh_types.go` -/

/-- Go `type MeshSpec struct`. -/
structure MeshSpec where
  ControllerName : GatewayController
  ParametersRef : Option ParametersReference
  Description : Option String
deriving DecidableEq

/-- Go `type MeshConditionType string`. -/
abbrev MeshConditionType := String

/-- Go `type MeshConditionReason string`. -/
abbrev MeshConditionReason := String

/-- Constant `MeshConditionStatusAccepted`. -/
def MeshConditionStatusAccepted : MeshConditionType := "Accepted"

/-- Constant `MeshReasonAccepted`. -/
def MeshReasonAccepted : MeshConditionReason := "Accepted"

/-- Constant `MeshReasonInvalidParameters`. It is declared as a reason; the comment on
`ParametersRef` speaks of an "InvalidParameters" status condition, while `Accepted` is the
only condition type declared. -/
def MeshReasonInvalidParameters : MeshConditionReason := "InvalidParameters"

/-- Constant `MeshReasonWaiting`. -/
def MeshReasonWaiting : MeshConditionReason := "Waiting"

/-- Go `type MeshStatus struct`. The kubebuilder markers (`MaxItems=8`, `listType=map`,
`listMapKey=type`) are comments for the schema generator: the Go type is a plain slice. -/
structure MeshStatus where
  Conditions : List Condition
deriving DecidableEq

/-- Go `type Mesh struct`; `metav1.ObjectMeta` is embedded, so `mesh.Name` is
`mesh.ObjectMeta.Name`. -/
structure Mesh (X : Ext) where
  TypeMeta : X.TypeMeta
  ObjectMeta : ObjectMeta
  Spec : MeshSpec
  Status : MeshStatus

/-- The promoted field `mesh.Name`. -/
def Mesh.Name {X : Ext} (mesh : Mesh X) : String := mesh.ObjectMeta.Name

/-- Go `type MeshList struct`. -/
structure MeshList (X : Ext) where
  TypeMeta : X.TypeMeta
  ListMeta : X.ListMeta
  Items : List (Mesh X)

/-! ## The request handed to the executor -/

/-- HTTP verbs opened by `rest.Interface`: `Get()`, `Post()`, `Put()`, `Delete()`, `Patch(pt)`. -/
inductive Verb where
  | GET
  | POST
  | PUT
  | DELETE
  | PATCH
deriving DecidableEq

/-- Objects `mesh.go` passes to `VersionedParams(&opts, scheme.ParameterCodec)`, plus
`DeleteOptions`, the one options type it never passes there. -/
inductive Options (X : Ext) where
  | get (o : X.GetOptions)
  | list (o : ListOptions)
  | create (o : X.CreateOptions)
  | update (o : X.UpdateOptions)
  | delete (o : X.DeleteOptions)
  | patch (o : X.PatchOptions)

/-- Go `[]byte`. -/
abbrev ByteSlice := List UInt8

/-- Go `[]string`, the type of a variadic `...string` parameter inside the function. -/
abbrev StringSlice := List String

/-- Objects `mesh.go` passes to `Body(...)`: a `*Mesh`, a `*metav1.DeleteOptions`, or raw bytes. -/
inductive Body (X : Ext) where
  | mesh (m : Mesh X)
  | deleteOptions (o : X.DeleteOptions)
  | bytes (data : ByteSlice)

/-! ### Path segment validation (`k8s.io/apimachinery/pkg/api/validation/path`)

The functions of this part and the builder methods of `rest.Request` below belong to
libraries outside the repository. They are modelled from the library code that `mesh.go`
calls, statement by statement, not from the two source files. -/

/-- One message of `IsValidPathSegmentName`: "may not be ..." or "may not contain ...". -/
inductive PathSegmentFinding where
  | mayNotBe (illegalName : String)
  | mayNotContain (illegalContent : Char)
deriving DecidableEq

/-- Modelled from the library: `NameMayNotBe`, the names refused as a path segment. -/
def NameMayNotBe : List String := [".", ".."]

/-- Modelled from the library: `NameMayNotContain`, the substrings refused inside a path
segment; both are single characters. -/
def NameMayNotContain : List Char := ['/', '%']

/-- Modelled from the library: `IsValidPathSegmentName(name)`. The first loop returns at the
first forbidden name that `name` equals; the second collects one message per forbidden
character that `name` contains. An empty result means the name is accepted. -/
def IsValidPathSegmentName (name : String) : List PathSegmentFinding :=
  match NameMayNotBe.find? (fun illegalName => name == illegalName) with
  | some illegalName => [PathSegmentFinding.mayNotBe illegalName]
  | none =>
    (NameMayNotContain.filter (fun illegalContent => name.toList.contains illegalContent)).map
      PathSegmentFinding.mayNotContain

/-- Modelled from the library: Go `path.Join(elem...)`, given as the list of elements of the
joined path. Empty elements are ignored and the others are joined with `/`; `path.Clean` has
nothing left to change when no element is `.`, `..` or contains `/`, which `SubResource`
checks before it stores the path. -/
def pathJoin (elem : StringSlice) : StringSlice := elem.filter (fun e => e ≠ "")

/-- Errors a builder method of `rest.Request` records in the request (`fmt.Errorf(...)`),
one constructor per message. -/
inductive RequestError where
  | resourceAlreadySet (old new : String)
  | invalidResource (resource : String) (msgs : List PathSegmentFinding)
  | resourceNameEmpty
  | resourceNameAlreadySet (old new : String)
  | invalidResourceName (resourceName : String) (msgs : List PathSegmentFinding)
  | subresourceAlreadySet (old new : StringSlice)
  | invalidSubresource (s : String) (msgs : List PathSegmentFinding)
deriving DecidableEq

/-- Modelled from the spec: `rest.Request` is declared outside the repository; the record has one
slot per argument of the executor interface `execute(verb, resourcePath, nameOrNil,
subResourcePathSegments, queryOptions, deadlineOrNil, bodyOrNil)`, the patch type given to
`Patch(pt)`, the namespace slot that a namespaced client would fill, and the error slot `err`
of the library type. As in the library, `resource` and `resourceName` are strings that are
empty while unset, and `subresource` is the joined sub-resource path (its elements). The
other slots are `none` as long as the builder call that fills them has not taken effect. -/
structure Request (X : Ext) where
  verb : Verb
  patchType : Option X.PatchType
  namespace_ : Option String
  resource : String
  resourceName : String
  subresource : StringSlice
  params : Option (Options X)
  /-- Argument of `Timeout(d)`, when that call took effect. -/
  timeout : Option Duration
  body : Option (Body X)
  /-- First error recorded by a builder method; once set, every later builder call returns
  the request as it is, and `Do` and `Watch` report this error instead of sending. -/
  err : Option RequestError

/-- A request on which only the verb has been chosen (`Verb(verb)` on a new request). -/
def Request.new {X : Ext} (v : Verb) (pt : Option X.PatchType) : Request X :=
  { verb := v, patchType := pt, namespace_ := none, resource := "", resourceName := "",
    subresource := [], params := none, timeout := none, body := none, err := none }

/-- Modelled from the library: builder `Resource(resource)`. -/
def Request.Resource {X : Ext} (r : Request X) (resource : String) : Request X :=
  if r.err.isSome then r
  else if r.resource.length ≠ 0 then
    { r with err := some (RequestError.resourceAlreadySet r.resource resource) }
  else if (IsValidPathSegmentName resource).length ≠ 0 then
    { r with err := some (RequestError.invalidResource resource
        (IsValidPathSegmentName resource)) }
  else { r with resource := resource }

/-- Modelled from the library: builder `Name(resourceName)`. It refuses the empty name, a
second name, and a name that is not a valid path segment. -/
def Request.Name {X : Ext} (r : Request X) (resourceName : String) : Request X :=
  if r.err.isSome then r
  else if resourceName.length = 0 then
    { r with err := some RequestError.resourceNameEmpty }
  else if r.resourceName.length ≠ 0 then
    { r with err := some (RequestError.resourceNameAlreadySet r.resourceName resourceName) }
  else if (IsValidPathSegmentName resourceName).length ≠ 0 then
    { r with err := some (RequestError.invalidResourceName resourceName
        (IsValidPathSegmentName resourceName)) }
  else { r with resourceName := resourceName }

/-- Modelled from the library: builder `SubResource(subresources...)`; the variadic argument
is the list. The segments are joined first, then a second sub-resource is refused, then the
first segment that is not a valid path segment is refused, then the joined path is stored. -/
def Request.SubResource {X : Ext} (r : Request X) (subresources : StringSlice) : Request X :=
  if r.err.isSome then r
  else
    let subresource := pathJoin subresources
    if r.subresource.length ≠ 0 then
      { r with err := some (RequestError.subresourceAlreadySet r.subresource subresource) }
    else
      match subresources.find? (fun s => (IsValidPathSegmentName s).length ≠ 0) with
      | some s =>
        { r with err := some (RequestError.invalidSubresource s (IsValidPathSegmentName s)) }
      | none => { r with subresource := subresource }

/-- Modelled from the library: builder `VersionedParams(obj, codec)`; the codec is always
`scheme.ParameterCodec`, whose encoding of the options types is taken to succeed. -/
def Request.VersionedParams {X : Ext} (r : Request X) (obj : Options X) : Request X :=
  if r.err.isSome then r else { r with params := some obj }

/-- Modelled from the library: builder `Timeout(d)`. -/
def Request.Timeout {X : Ext} (r : Request X) (d : Duration) : Request X :=
  if r.err.isSome then r else { r with timeout := some d }

/-- Modelled from the library: builder `Body(obj)`; the serialisation of a non-nil object is
taken to succeed. -/
def Request.Body {X : Ext} (r : Request X) (obj : Body X) : Request X :=
  if r.err.isSome then r else { r with body := some obj }

/-- What `Name` checks of its argument on a request without error and without name: the name
is not empty and is a valid path segment. -/
def acceptedName (resourceName : String) : Bool :=
  resourceName.length ≠ 0 && (IsValidPathSegmentName resourceName).length = 0

/-- What `SubResource` checks of its argument on a request without error and without
sub-resource: every segment is a valid path segment. -/
def acceptedSegments (subresources : StringSlice) : Bool :=
  subresources.all (fun s => (IsValidPathSegmentName s).length = 0)

/-- The error `SubResource` records on a request without error and without sub-resource:
the one of the first segment that is not a valid path segment, if there is one. -/
def segmentsError (subresources : StringSlice) : Option RequestError :=
  (subresources.find? (fun s => (IsValidPathSegmentName s).length ≠ 0)).map
    (fun s => RequestError.invalidSubresource s (IsValidPathSegmentName s))

/-- The error `Name` records for a name it does not accept. -/
def nameError (resourceName : String) : RequestError :=
  if resourceName.length = 0 then RequestError.resourceNameEmpty
  else RequestError.invalidResourceName resourceName (IsValidPathSegmentName resourceName)

/-- Modelled from the spec: the Request Executor, `rest.Interface` together with the
`rest.Result` it returns, is an opaque collaborator. `σ` is whatever state the executor has
(connections, the server behind it); `Do` and `Watch` are the two calls that send a request.
`IntoMesh` and `IntoMeshList` are `Result.Into(result)` on the freshly allocated
`&v1alpha2.Mesh{}` / `&v1alpha2.MeshList{}`: the decoded object and the reported error.
`Error` is `Result.Error()`. -/
structure RESTClient (X : Ext) (σ : Type) where
  Do : X.Context → Request X → σ → X.Result × σ
  Watch : X.Context → Request X → σ → (X.WatchInterface × Option X.Err) × σ
  IntoMesh : X.Result → Mesh X × Option X.Err
  IntoMeshList : X.Result → MeshList X × Option X.Err
  Error : X.Result → Option X.Err

/-- Method `rest.Interface.Get()`. -/
def RESTClient.Get {X : Ext} {σ : Type} (_c : RESTClient X σ) : Request X :=
  Request.new Verb.GET none

/-- Method `rest.Interface.Post()`. -/
def RESTClient.Post {X : Ext} {σ : Type} (_c : RESTClient X σ) : Request X :=
  Request.new Verb.POST none

/-- Method `rest.Interface.Put()`. -/
def RESTClient.Put {X : Ext} {σ : Type} (_c : RESTClient X σ) : Request X :=
  Request.new Verb.PUT none

/-- Method `rest.Interface.Delete()`. -/
def RESTClient.Delete {X : Ext} {σ : Type} (_c : RESTClient X σ) : Request X :=
  Request.new Verb.DELETE none

/-- Method `rest.Interface.Patch(pt)`. -/
def RESTClient.Patch {X : Ext} {σ : Type} (_c : RESTClient X σ) (pt : X.PatchType) : Request X :=
  Request.new Verb.PATCH (some pt)

/-- Go `type meshes struct { client rest.Interface }`. -/
structure meshes (X : Ext) (σ : Type) where
  client : RESTClient X σ

/-! ## `mesh.go`: the nine operations

The receiver `c *meshes` is the first argument. A `*v1alpha2.Mesh` argument is embedded as the
`Mesh` it points to. -/

section Operations

variable {X : Ext} {σ : Type}

/-- Request chain of `Get`: `c.client.Get().Resource("meshes").Name(name).VersionedParams(&options, ...)`. -/
def meshes.GetRequest (c : meshes X σ) (name : String) (options : X.GetOptions) : Request X :=
  ((c.client.Get.Resource "meshes").Name name).VersionedParams (Options.get options)

/-- Go `func (c *meshes) Get(ctx, name, options) (result *v1alpha2.Mesh, err error)`. -/
def meshes.Get (c : meshes X σ) (ctx : X.Context) (name : String) (options : X.GetOptions)
    (s : σ) : (Mesh X × Option X.Err) × σ :=
  let r := c.client.Do ctx (c.GetRequest name options) s
  (c.client.IntoMesh r.1, r.2)

/-- Request chain of `List`, with the timeout computed before it. -/
def meshes.ListRequest (c : meshes X σ) (opts : ListOptions) : Request X :=
  let timeout : Duration :=
    match opts.TimeoutSeconds with
    | some t => Duration.mul (Duration.ofInt64 t) Second
    | none => 0
  ((c.client.Get.Resource "meshes").VersionedParams (Options.list opts)).Timeout timeout

/-- Go `func (c *meshes) List(ctx, opts) (result *v1alpha2.MeshList, err error)`. -/
def meshes.List (c : meshes X σ) (ctx : X.Context) (opts : ListOptions)
    (s : σ) : (MeshList X × Option X.Err) × σ :=
  let r := c.client.Do ctx (c.ListRequest opts) s
  (c.client.IntoMeshList r.1, r.2)

/-- Request chain of `Watch`: the timeout is read first, then `opts.Watch = true` updates the
parameter, then `&opts` is encoded. -/
def meshes.WatchRequest (c : meshes X σ) (opts : ListOptions) : Request X :=
  let timeout : Duration :=
    match opts.TimeoutSeconds with
    | some t => Duration.mul (Duration.ofInt64 t) Second
    | none => 0
  let opts := { opts with Watch := true }
  ((c.client.Get.Resource "meshes").VersionedParams (Options.list opts)).Timeout timeout

/-- Go `func (c *meshes) Watch(ctx, opts) (watch.Interface, error)`. -/
def meshes.Watch (c : meshes X σ) (ctx : X.Context) (opts : ListOptions)
    (s : σ) : (X.WatchInterface × Option X.Err) × σ :=
  c.client.Watch ctx (c.WatchRequest opts) s

/-- Request chain of `Create`. -/
def meshes.CreateRequest (c : meshes X σ) (mesh : Mesh X) (opts : X.CreateOptions) : Request X :=
  ((c.client.Post.Resource "meshes").VersionedParams (Options.create opts)).Body (Body.mesh mesh)

/-- Go `func (c *meshes) Create(ctx, mesh, opts) (result *v1alpha2.Mesh, err error)`. -/
def meshes.Create (c : meshes X σ) (ctx : X.Context) (mesh : Mesh X) (opts : X.CreateOptions)
    (s : σ) : (Mesh X × Option X.Err) × σ :=
  let r := c.client.Do ctx (c.CreateRequest mesh opts) s
  (c.client.IntoMesh r.1, r.2)

/-- Request chain of `Update`. -/
def meshes.UpdateRequest (c : meshes X σ) (mesh : Mesh X) (opts : X.UpdateOptions) : Request X :=
  (((c.client.Put.Resource "meshes").Name mesh.Name).VersionedParams
    (Options.update opts)).Body (Body.mesh mesh)

/-- Go `func (c *meshes) Update(ctx, mesh, opts) (result *v1alpha2.Mesh, err error)`. -/
def meshes.Update (c : meshes X σ) (ctx : X.Context) (mesh : Mesh X) (opts : X.UpdateOptions)
    (s : σ) : (Mesh X × Option X.Err) × σ :=
  let r := c.client.Do ctx (c.UpdateRequest mesh opts) s
  (c.client.IntoMesh r.1, r.2)

/-- Request chain of `UpdateStatus`. -/
def meshes.UpdateStatusRequest (c : meshes X σ) (mesh : Mesh X) (opts : X.UpdateOptions) :
    Request X :=
  ((((c.client.Put.Resource "meshes").Name mesh.Name).SubResource ["status"]).VersionedParams
    (Options.update opts)).Body (Body.mesh mesh)

/-- Go `func (c *meshes) UpdateStatus(ctx, mesh, opts) (result *v1alpha2.Mesh, err error)`. -/
def meshes.UpdateStatus (c : meshes X σ) (ctx : X.Context) (mesh : Mesh X)
    (opts : X.UpdateOptions) (s : σ) : (Mesh X × Option X.Err) × σ :=
  let r := c.client.Do ctx (c.UpdateStatusRequest mesh opts) s
  (c.client.IntoMesh r.1, r.2)

/-- Request chain of `Delete`: the options go to `Body(&opts)`; there is no `VersionedParams`. -/
def meshes.DeleteRequest (c : meshes X σ) (name : String) (opts : X.DeleteOptions) : Request X :=
  ((c.client.Delete.Resource "meshes").Name name).Body (Body.deleteOptions opts)

/-- Go `func (c *meshes) Delete(ctx, name, opts) error`. -/
def meshes.Delete (c : meshes X σ) (ctx : X.Context) (name : String) (opts : X.DeleteOptions)
    (s : σ) : Option X.Err × σ :=
  let r := c.client.Do ctx (c.DeleteRequest name opts) s
  (c.client.Error r.1, r.2)

/-- Request chain of `DeleteCollection`: `listOpts` is encoded, `opts` is the body. -/
def meshes.DeleteCollectionRequest (c : meshes X σ) (opts : X.DeleteOptions)
    (listOpts : ListOptions) : Request X :=
  let timeout : Duration :=
    match listOpts.TimeoutSeconds with
    | some t => Duration.mul (Duration.ofInt64 t) Second
    | none => 0
  (((c.client.Delete.Resource "meshes").VersionedParams (Options.list listOpts)).Timeout
    timeout).Body (Body.deleteOptions opts)

/-- Go `func (c *meshes) DeleteCollection(ctx, opts, listOpts) error`. -/
def meshes.DeleteCollection (c : meshes X σ) (ctx : X.Context) (opts : X.DeleteOptions)
    (listOpts : ListOptions) (s : σ) : Option X.Err × σ :=
  let r := c.client.Do ctx (c.DeleteCollectionRequest opts listOpts) s
  (c.client.Error r.1, r.2)

/-- Request chain of `Patch`. -/
def meshes.PatchRequest (c : meshes X σ) (name : String) (pt : X.PatchType) (data : ByteSlice)
    (opts : X.PatchOptions) (subresources : StringSlice) : Request X :=
  (((((c.client.Patch pt).Resource "meshes").Name name).SubResource subresources).VersionedParams
    (Options.patch opts)).Body (Body.bytes data)

/-- Go `func (c *meshes) Patch(ctx, name, pt, data, opts, subresources...) (result, err)`. -/
def meshes.Patch (c : meshes X σ) (ctx : X.Context) (name : String) (pt : X.PatchType)
    (data : ByteSlice) (opts : X.PatchOptions) (subresources : StringSlice)
    (s : σ) : (Mesh X × Option X.Err) × σ :=
  let r := c.client.Do ctx (c.PatchRequest name pt data opts subresources) s
  (c.client.IntoMesh r.1, r.2)

end Operations

/-! ## The executor with a journal -/

/-- Requests sent so far, oldest first. -/
abbrev Journal (X : Ext) := List (Request X)

/-- The executor `c` observed: every `Do` and every `Watch` also appends the request it was
given to a journal. Nothing else changes. -/
def RESTClient.logged {X : Ext} {σ : Type} (c : RESTClient X σ) : RESTClient X (σ × Journal X) :=
  { Do := fun ctx r s => let p := c.Do ctx r s.1; (p.1, (p.2, s.2 ++ [r]))
    Watch := fun ctx r s => let p := c.Watch ctx r s.1; (p.1, (p.2, s.2 ++ [r]))
    IntoMesh := c.IntoMesh
    IntoMeshList := c.IntoMeshList
    Error := c.Error }

/-- The typed client over the observed executor. -/
def meshes.logged {X : Ext} {σ : Type} (c : meshes X σ) : meshes X (σ × Journal X) :=
  { client := c.client.logged }

/-! ## Value parameters -/

/-- Variables of type `metav1.ListOptions`, by address; addresses below `next` are in use. -/
structure OptsStore where
  cell : Nat → ListOptions
  next : Nat

/-- Assignment to the variable at address `a`. -/
def OptsStore.write (st : OptsStore) (a : Nat) (v : ListOptions) : OptsStore :=
  { st with cell := fun b => if b = a then v else st.cell b }

/-- A new variable initialised with `v`; returns its address. -/
def OptsStore.alloc (st : OptsStore) (v : ListOptions) : Nat × OptsStore :=
  (st.next, { cell := fun b => if b = st.next then v else st.cell b, next := st.next + 1 })

/-- The call `c.Watch(ctx, o)` seen from a caller whose variable `o` is at address `a`.
The parameter `opts v1.ListOptions` is a value parameter: a new variable that receives a copy
of `o`. The body of `Watch` then runs on that variable: it reads `opts.TimeoutSeconds`, assigns
`opts.Watch = true`, and gives `&opts` to `VersionedParams`. -/
def meshes.WatchCall {X : Ext} {σ : Type} (c : meshes X σ) (ctx : X.Context) (a : Nat)
    (st : OptsStore) (s : σ) : ((X.WatchInterface × Option X.Err) × σ) × OptsStore :=
  let al := st.alloc (st.cell a)
  let opts := al.1
  let st := al.2
  let timeout : Duration :=
    match (st.cell opts).TimeoutSeconds with
    | some t => Duration.mul (Duration.ofInt64 t) Second
    | none => 0
  let st := st.write opts { st.cell opts with Watch := true }
  (c.client.Watch ctx
    (((c.client.Get.Resource "meshes").VersionedParams
      (Options.list (st.cell opts))).Timeout timeout) s, st)

/-! ## Concrete instances used for evaluation -/

/-- An instance of the parameter types: every passed-through type is a string. -/
def Ext.strings : Ext :=
  { Context := Unit, TypeMeta := String, ListMeta := String, GetOptions := String,
    CreateOptions := String, UpdateOptions := String, DeleteOptions := String,
    PatchOptions := String, PatchType := String, Err := String, Result := String,
    WatchInterface := String }

/-- The zero value `metav1.ListOptions{}`. -/
def ListOptions.zero : ListOptions :=
  { LabelSelector := "", FieldSelector := "", Watch := false, AllowWatchBookmarks := false,
    ResourceVersion := "", ResourceVersionMatch := "", TimeoutSeconds := none, Limit := 0,
    Continue := "" }

/-- The zero value `v1alpha2.Mesh{}` over `Ext.strings`. -/
def Mesh.zero : Mesh Ext.strings :=
  { TypeMeta := "", ObjectMeta := { Name := "", ResourceVersion := "", Generation := 0 },
    Spec := { ControllerName := "", ParametersRef := none, Description := none },
    Status := { Conditions := [] } }

/-- A store with one variable, the zero `ListOptions` of a caller, at address `0`. -/
def OptsStore.single : OptsStore := { cell := fun _ => ListOptions.zero, next := 1 }

/-- A condition record of type `Accepted` with status `Unknown` and reason `Waiting`. -/
def Condition.waiting : Condition :=
  { Type_ := MeshConditionStatusAccepted, Status := ConditionStatus.ConditionUnknown,
    ObservedGeneration := 0, LastTransitionTime := 0, Reason := MeshReasonWaiting,
    Message := "Waiting for controller" }

/-- A payload no schema would accept: nine condition records, all of type `Accepted`, and a
description of 65 characters. -/
def Mesh.overfull : Mesh Ext.strings :=
  { Mesh.zero with
    ObjectMeta := { Name := "big", ResourceVersion := "7", Generation := 1 }
    Spec := { ControllerName := "example.io/ctrl", ParametersRef := none,
              Description :=
                some "0123456789012345678901234567890123456789012345678901234567890123x" }
    Status := { Conditions := List.replicate 9 Condition.waiting } }

/-- An executor that answers every request with the name it was asked about, without state. -/
def echoClient : RESTClient Ext.strings Unit :=
  { Do := fun _ r s => (r.resourceName, s)
    Watch := fun _ r s => ((r.resource, none), s)
    IntoMesh := fun res =>
      ({ Mesh.zero with ObjectMeta := { Mesh.zero.ObjectMeta with Name := res } }, none)
    IntoMeshList := fun _ => ({ TypeMeta := "", ListMeta := "", Items := [] }, none)
    Error := fun _ => none }

/-- The typed client over `echoClient`. -/
def echoMeshes : meshes Ext.strings Unit := { client := echoClient }

/-! ## The builder calls of the nine chains -/

section Builders

variable {X : Ext} {σ : Type}

/-- The resource `"meshes"` is a valid path segment. -/
theorem IsValidPathSegmentName_meshes : IsValidPathSegmentName "meshes" = [] := by decide

/-- The segment `"status"` is a valid path segment. -/
theorem IsValidPathSegmentName_status : IsValidPathSegmentName "status" = [] := by decide

/-- A name is accepted exactly when it is not empty, not `.`, not `..`, and contains neither
`/` nor `%`. -/
theorem acceptedName_iff (n : String) :
    acceptedName n = true ↔
      (n ≠ "" ∧ n ≠ "." ∧ n ≠ ".." ∧ '/' ∉ n.toList ∧ '%' ∉ n.toList) := by
  unfold acceptedName IsValidPathSegmentName NameMayNotBe NameMayNotContain
  by_cases h1 : n = "."
  · subst h1; decide
  · by_cases h2 : n = ".."
    · subst h2; decide
    · have h0 : n.length = 0 ↔ n = "" := by
        constructor
        · intro h
          exact String.ext (List.length_eq_zero.mp h)
        · intro h; subst h; rfl
      have e1 : (n == ".") = false := by simpa using h1
      have e2 : (n == "..") = false := by simpa using h2
      have hd : n.toList = n.data := rfl
      rw [hd]
      by_cases hs : '/' ∈ n.data <;> by_cases hp : '%' ∈ n.data <;>
        simp [List.find?, List.filter, e1, e2, h1, h2, h0, hs, hp]

/-- `Resource("meshes")` on a new request stores the resource. -/
theorem Request.Resource_meshes (v : Verb) (pt : Option X.PatchType) :
    (Request.new v pt).Resource "meshes" = { Request.new v pt with resource := "meshes" } := by
  simp [Request.Resource, Request.new, IsValidPathSegmentName_meshes]

/-- `Name` on a request without error and without name. -/
theorem Request.Name_eq (r : Request X) (n : String) (he : r.err = none)
    (hn : r.resourceName = "") :
    r.Name n = if acceptedName n then { r with resourceName := n }
      else { r with err := some (nameError n) } := by
  unfold Request.Name acceptedName nameError
  by_cases h0 : n.length = 0
  · simp [he, h0]
  · by_cases hv : (IsValidPathSegmentName n).length = 0
    · simp [he, hn, h0, hv]
    · simp [he, hn, h0, hv]

/-- `SubResource` on a request without error and without sub-resource. -/
theorem Request.SubResource_eq (r : Request X) (ss : StringSlice) (he : r.err = none)
    (hs : r.subresource = []) :
    r.SubResource ss = match segmentsError ss with
      | some e => { r with err := some e }
      | none => { r with subresource := pathJoin ss } := by
  unfold Request.SubResource segmentsError
  cases hf : List.find? (fun s => (IsValidPathSegmentName s).length ≠ 0) ss <;>
    simp [he, hs, hf]

/-- No segment is refused exactly when every segment is a valid path segment. -/
theorem segmentsError_eq_none_iff (ss : StringSlice) :
    segmentsError ss = none ↔ acceptedSegments ss = true := by
  unfold segmentsError acceptedSegments
  simp [List.find?_eq_none, List.all_eq_true]

/-- The request of `Get`, in full. -/
theorem GetRequest_eq (c : meshes X σ) (name : String) (g : X.GetOptions) :
    c.GetRequest name g =
      if acceptedName name then
        { Request.new Verb.GET none with
          resource := "meshes", resourceName := name, params := some (Options.get g) }
      else { Request.new Verb.GET none with resource := "meshes", err := some (nameError name) } := by
  unfold meshes.GetRequest RESTClient.Get
  rw [Request.Resource_meshes, Request.Name_eq _ _ rfl rfl]
  by_cases h : acceptedName name <;> simp [h, Request.VersionedParams, Request.new]

/-- The request of `List`, in full. -/
theorem ListRequest_eq (c : meshes X σ) (opts : ListOptions) :
    c.ListRequest opts =
      { Request.new Verb.GET none with
        resource := "meshes", params := some (Options.list opts),
        timeout := some (match opts.TimeoutSeconds with
          | some t => Duration.mul (Duration.ofInt64 t) Second
          | none => 0) } := by
  unfold meshes.ListRequest RESTClient.Get
  rw [Request.Resource_meshes]
  simp [Request.VersionedParams, Request.Timeout, Request.new]

/-- The request of `Watch`, in full. -/
theorem WatchRequest_eq (c : meshes X σ) (opts : ListOptions) :
    c.WatchRequest opts =
      { Request.new Verb.GET none with
        resource := "meshes", params := some (Options.list { opts with Watch := true }),
        timeout := some (match opts.TimeoutSeconds with
          | some t => Duration.mul (Duration.ofInt64 t) Second
          | none => 0) } := by
  unfold meshes.WatchRequest RESTClient.Get
  rw [Request.Resource_meshes]
  simp [Request.VersionedParams, Request.Timeout, Request.new]

/-- The request of `Create`, in full. -/
theorem CreateRequest_eq (c : meshes X σ) (m : Mesh X) (cr : X.CreateOptions) :
    c.CreateRequest m cr =
      { Request.new Verb.POST none with
        resource := "meshes", params := some (Options.create cr),
        body := some (Body.mesh m) } := by
  unfold meshes.CreateRequest RESTClient.Post
  rw [Request.Resource_meshes]
  simp [Request.VersionedParams, Request.Body, Request.new]

/-- The request of `Update`, in full. -/
theorem UpdateRequest_eq (c : meshes X σ) (m : Mesh X) (u : X.UpdateOptions) :
    c.UpdateRequest m u =
      if acceptedName m.ObjectMeta.Name then
        { Request.new Verb.PUT none with
          resource := "meshes", resourceName := m.ObjectMeta.Name,
          params := some (Options.update u), body := some (Body.mesh m) }
      else
        { Request.new Verb.PUT none with
          resource := "meshes", err := some (nameError m.ObjectMeta.Name) } := by
  unfold meshes.UpdateRequest RESTClient.Put Mesh.Name
  rw [Request.Resource_meshes, Request.Name_eq _ _ rfl rfl]
  by_cases h : acceptedName m.ObjectMeta.Name <;>
    simp [h, Request.VersionedParams, Request.Body, Request.new]

/-- The request of `UpdateStatus`, in full. -/
theorem UpdateStatusRequest_eq (c : meshes X σ) (m : Mesh X) (u : X.UpdateOptions) :
    c.UpdateStatusRequest m u =
      if acceptedName m.ObjectMeta.Name then
        { Request.new Verb.PUT none with
          resource := "meshes", resourceName := m.ObjectMeta.Name, subresource := ["status"],
          params := some (Options.update u), body := some (Body.mesh m) }
      else
        { Request.new Verb.PUT none with
          resource := "meshes", err := some (nameError m.ObjectMeta.Name) } := by
  unfold meshes.UpdateStatusRequest RESTClient.Put Mesh.Name
  rw [Request.Resource_meshes, Request.Name_eq _ _ rfl rfl]
  by_cases h : acceptedName m.ObjectMeta.Name
  · simp only [h, if_true]
    rw [Request.SubResource_eq _ _ rfl rfl]
    have hs : segmentsError ["status"] = none := by decide
    simp [hs, pathJoin, Request.VersionedParams, Request.Body, Request.new]
  · simp [h, Request.SubResource, Request.VersionedParams, Request.Body, Request.new]

/-- The request of `Delete`, in full. -/
theorem DeleteRequest_eq (c : meshes X σ) (name : String) (d : X.DeleteOptions) :
    c.DeleteRequest name d =
      if acceptedName name then
        { Request.new Verb.DELETE none with
          resource := "meshes", resourceName := name, body := some (Body.deleteOptions d) }
      else
        { Request.new Verb.DELETE none with
          resource := "meshes", err := some (nameError name) } := by
  unfold meshes.DeleteRequest RESTClient.Delete
  rw [Request.Resource_meshes, Request.Name_eq _ _ rfl rfl]
  by_cases h : acceptedName name <;> simp [h, Request.Body, Request.new]

/-- The request of `DeleteCollection`, in full. -/
theorem DeleteCollectionRequest_eq (c : meshes X σ) (d : X.DeleteOptions)
    (listOpts : ListOptions) :
    c.DeleteCollectionRequest d listOpts =
      { Request.new Verb.DELETE none with
        resource := "meshes", params := some (Options.list listOpts),
        timeout := some (match listOpts.TimeoutSeconds with
          | some t => Duration.mul (Duration.ofInt64 t) Second
          | none => 0),
        body := some (Body.deleteOptions d) } := by
  unfold meshes.DeleteCollectionRequest RESTClient.Delete
  rw [Request.Resource_meshes]
  simp [Request.VersionedParams, Request.Timeout, Request.Body, Request.new]

/-- The request of `Patch`, in full. -/
theorem PatchRequest_eq (c : meshes X σ) (name : String) (pt : X.PatchType) (data : ByteSlice)
    (po : X.PatchOptions) (ss : StringSlice) :
    c.PatchRequest name pt data po ss =
      if acceptedName name then
        match segmentsError ss with
        | some e =>
          { Request.new Verb.PATCH (some pt) with
            resource := "meshes", resourceName := name, err := some e }
        | none =>
          { Request.new Verb.PATCH (some pt) with
            resource := "meshes", resourceName := name, subresource := pathJoin ss,
            params := some (Options.patch po), body := some (Body.bytes data) }
      else
        { Request.new Verb.PATCH (some pt) with
          resource := "meshes", err := some (nameError name) } := by
  unfold meshes.PatchRequest RESTClient.Patch
  rw [Request.Resource_meshes, Request.Name_eq _ _ rfl rfl]
  by_cases h : acceptedName name
  · simp only [h, if_true]
    rw [Request.SubResource_eq _ _ rfl rfl]
    cases hs : segmentsError ss <;> simp [Request.VersionedParams, Request.Body, Request.new]
  · simp [h, Request.SubResource, Request.VersionedParams, Request.Body, Request.new]

end Builders

/-! ## Timeout conversion -/

section Timeout

variable {X : Ext} {σ : Type}

/-- The timeout `List` hands over is the conversion of `opts.TimeoutSeconds`. -/
theorem ListRequest_timeout (c : meshes X σ) (opts : ListOptions) :
    (c.ListRequest opts).timeout =
      some (match opts.TimeoutSeconds with
        | some t => wrapInt64 (t * 1000000000)
        | none => 0) := by
  rw [ListRequest_eq]
  cases h : opts.TimeoutSeconds <;> simp [Duration.mul, Duration.ofInt64, Second]

/-- The timeout `Watch` hands over is the conversion of `opts.TimeoutSeconds`. -/
theorem WatchRequest_timeout (c : meshes X σ) (opts : ListOptions) :
    (c.WatchRequest opts).timeout =
      some (match opts.TimeoutSeconds with
        | some t => wrapInt64 (t * 1000000000)
        | none => 0) := by
  rw [WatchRequest_eq]
  cases h : opts.TimeoutSeconds <;> simp [Duration.mul, Duration.ofInt64, Second]

/-- The timeout `DeleteCollection` hands over is the conversion of `listOpts.TimeoutSeconds`. -/
theorem DeleteCollectionRequest_timeout (c : meshes X σ) (opts : X.DeleteOptions)
    (listOpts : ListOptions) :
    (c.DeleteCollectionRequest opts listOpts).timeout =
      some (match listOpts.TimeoutSeconds with
        | some t => wrapInt64 (t * 1000000000)
        | none => 0) := by
  rw [DeleteCollectionRequest_eq]
  cases h : listOpts.TimeoutSeconds <;> simp [Duration.mul, Duration.ofInt64, Second]

/-- The 64-bit product `s * 1000000000` is the mathematical product exactly when
`s` lies between `-9223372036` and `9223372036`. -/
theorem wrapInt64_seconds_exact_iff (s : Int) :
    wrapInt64 (s * 1000000000) = s * 1000000000 ↔ (-9223372036 ≤ s ∧ s ≤ 9223372036) := by
  unfold wrapInt64
  norm_num
  omega

end Timeout

/-! ## C1, C2: `timeoutSeconds` and the request timeout -/

section TimeoutClaims

variable {X : Ext} {σ : Type}

/-- C1, refuted as stated: with `timeoutSeconds` absent, `List`, `Watch` and `DeleteCollection`
hand over the timeout `0` (not "no timeout argument"), and this is the very timeout they hand
over when `timeoutSeconds = 0`. Evaluated on the zero `ListOptions`. -/
theorem C1_absent_and_zero_timeouts_coincide :
    ListOptions.zero.TimeoutSeconds = none ∧
    ((echoMeshes.ListRequest ListOptions.zero).timeout = some 0 ∧
      (echoMeshes.ListRequest ListOptions.zero).timeout =
        (echoMeshes.ListRequest { ListOptions.zero with TimeoutSeconds := some 0 }).timeout) ∧
    ((echoMeshes.WatchRequest ListOptions.zero).timeout = some 0 ∧
      (echoMeshes.WatchRequest ListOptions.zero).timeout =
        (echoMeshes.WatchRequest { ListOptions.zero with TimeoutSeconds := some 0 }).timeout) ∧
    ((echoMeshes.DeleteCollectionRequest "" ListOptions.zero).timeout = some 0 ∧
      (echoMeshes.DeleteCollectionRequest "" ListOptions.zero).timeout =
        (echoMeshes.DeleteCollectionRequest ""
          { ListOptions.zero with TimeoutSeconds := some 0 }).timeout) := by
  refine ⟨rfl, ⟨?_, ?_⟩, ⟨?_, ?_⟩, ⟨?_, ?_⟩⟩ <;>
    simp [ListRequest_timeout, WatchRequest_timeout, DeleteCollectionRequest_timeout,
      ListOptions.zero, wrapInt64]

/-- C1 (amended): for `List`, `Watch` and `DeleteCollection`, when `timeoutSeconds` is absent
the timeout handed to the request is the zero duration, the same timeout that is handed over
when `timeoutSeconds = 0`; the request built from the same options with `timeoutSeconds = 0`
is the request built with `timeoutSeconds` absent in every slot (verb, resource, name,
sub-resource, timeout, body, error) except the encoded list options, which differ. -/
theorem C1_absent_timeout_is_zero_duration (c : meshes X σ) (o : ListOptions)
    (d : X.DeleteOptions) (h : o.TimeoutSeconds = none) :
    ((c.ListRequest o).timeout = some 0 ∧
      (c.ListRequest { o with TimeoutSeconds := some 0 }).timeout = some 0 ∧
      (c.ListRequest o).params ≠ (c.ListRequest { o with TimeoutSeconds := some 0 }).params ∧
      c.ListRequest { o with TimeoutSeconds := some 0 } =
        { c.ListRequest o with
          params := some (Options.list { o with TimeoutSeconds := some 0 }) }) ∧
    ((c.WatchRequest o).timeout = some 0 ∧
      (c.WatchRequest { o with TimeoutSeconds := some 0 }).timeout = some 0 ∧
      (c.WatchRequest o).params ≠ (c.WatchRequest { o with TimeoutSeconds := some 0 }).params ∧
      c.WatchRequest { o with TimeoutSeconds := some 0 } =
        { c.WatchRequest o with
          params := some (Options.list { o with TimeoutSeconds := some 0, Watch := true }) }) ∧
    ((c.DeleteCollectionRequest d o).timeout = some 0 ∧
      (c.DeleteCollectionRequest d { o with TimeoutSeconds := some 0 }).timeout = some 0 ∧
      (c.DeleteCollectionRequest d o).params ≠
        (c.DeleteCollectionRequest d { o with TimeoutSeconds := some 0 }).params ∧
      c.DeleteCollectionRequest d { o with TimeoutSeconds := some 0 } =
        { c.DeleteCollectionRequest d o with
          params := some (Options.list { o with TimeoutSeconds := some 0 }) }) := by
  have hz : Duration.mul (Duration.ofInt64 0) Second = 0 := by decide
  refine ⟨⟨?_, ?_, ?_, ?_⟩, ⟨?_, ?_, ?_, ?_⟩, ⟨?_, ?_, ?_, ?_⟩⟩
  · simp [ListRequest_timeout, h]
  · simp [ListRequest_timeout, wrapInt64]
  · intro hp
    simp only [ListRequest_eq, Option.some.injEq, Options.list.injEq] at hp
    have ht := congrArg ListOptions.TimeoutSeconds hp
    simp [h] at ht
  · simp [ListRequest_eq, h, hz]
  · simp [WatchRequest_timeout, h]
  · simp [WatchRequest_timeout, wrapInt64]
  · intro hp
    simp only [WatchRequest_eq, Option.some.injEq, Options.list.injEq] at hp
    have ht := congrArg ListOptions.TimeoutSeconds hp
    simp [h] at ht
  · simp [WatchRequest_eq, h, hz]
  · simp [DeleteCollectionRequest_timeout, h]
  · simp [DeleteCollectionRequest_timeout, wrapInt64]
  · intro hp
    simp only [DeleteCollectionRequest_eq, Option.some.injEq, Options.list.injEq] at hp
    have ht := congrArg ListOptions.TimeoutSeconds hp
    simp [h] at ht
  · simp [DeleteCollectionRequest_eq, h, hz]

/-- C1 (amended), at the zero `ListOptions` on the echo client. -/
theorem C1_absent_timeout_is_zero_duration_witness :
    ListOptions.zero.TimeoutSeconds = none ∧
    (echoMeshes.ListRequest ListOptions.zero).timeout = some 0 ∧
    (echoMeshes.WatchRequest ListOptions.zero).timeout = some 0 ∧
    (echoMeshes.DeleteCollectionRequest "all" ListOptions.zero).timeout = some 0 ∧
    echoMeshes.ListRequest { ListOptions.zero with TimeoutSeconds := some 0 } =
      { echoMeshes.ListRequest ListOptions.zero with
        params := some (Options.list { ListOptions.zero with TimeoutSeconds := some 0 }) } :=
  have t := C1_absent_timeout_is_zero_duration echoMeshes ListOptions.zero "all" rfl
  ⟨rfl, t.1.1, t.2.1.1, t.2.2.1, t.1.2.2.2⟩

/-- C2, refuted as stated: `timeoutSeconds = 9223372037` fits in 64 bits, but the timeout
handed over by `List`, `Watch` and `DeleteCollection` is the wrapped product
`-9223372036709551616` nanoseconds, not `9223372037 * 1000000000`. -/
theorem C2_timeout_wraps_at_9223372037 :
    isInt64 9223372037 ∧
    (echoMeshes.ListRequest { ListOptions.zero with TimeoutSeconds := some 9223372037 }).timeout
      = some (-9223372036709551616) ∧
    (echoMeshes.WatchRequest { ListOptions.zero with TimeoutSeconds := some 9223372037 }).timeout
      = some (-9223372036709551616) ∧
    (echoMeshes.DeleteCollectionRequest ""
      { ListOptions.zero with TimeoutSeconds := some 9223372037 }).timeout
      = some (-9223372036709551616) ∧
    (-9223372036709551616 : Int) ≠ 9223372037 * 1000000000 := by
  refine ⟨by unfold isInt64; norm_num, ?_, ?_, ?_, by norm_num⟩ <;>
    simp [ListRequest_timeout, WatchRequest_timeout, DeleteCollectionRequest_timeout,
      ListOptions.zero, wrapInt64]

/-- C2 (amended): for `List`, `Watch` and `DeleteCollection` and every 64-bit signed
`timeoutSeconds` value `s` that is present, the timeout handed over is the 64-bit product of
`s` and `1000000000`; it equals `s * 1000000000` as a mathematical integer exactly when
`-9223372036 ≤ s ≤ 9223372036`, and wraps around modulo `2^64` otherwise. -/
theorem C2_timeout_is_wrapped_seconds (c : meshes X σ) (o : ListOptions) (d : X.DeleteOptions)
    (s : Int) (_hs : isInt64 s) :
    (c.ListRequest { o with TimeoutSeconds := some s }).timeout
      = some (wrapInt64 (s * 1000000000)) ∧
    (c.WatchRequest { o with TimeoutSeconds := some s }).timeout
      = some (wrapInt64 (s * 1000000000)) ∧
    (c.DeleteCollectionRequest d { o with TimeoutSeconds := some s }).timeout
      = some (wrapInt64 (s * 1000000000)) ∧
    isInt64 (wrapInt64 (s * 1000000000)) ∧
    (wrapInt64 (s * 1000000000) = s * 1000000000 ↔ (-9223372036 ≤ s ∧ s ≤ 9223372036)) := by
  refine ⟨?_, ?_, ?_, ?_, wrapInt64_seconds_exact_iff s⟩
  · simp [ListRequest_timeout]
  · simp [WatchRequest_timeout]
  · simp [DeleteCollectionRequest_timeout]
  · unfold isInt64 wrapInt64 at *
    norm_num
    omega

/-- C2 (amended), at `timeoutSeconds = 30`: the timeout is `30000000000` nanoseconds. -/
theorem C2_timeout_is_wrapped_seconds_witness :
    isInt64 30 ∧
    (echoMeshes.ListRequest { ListOptions.zero with TimeoutSeconds := some 30 }).timeout
      = some (wrapInt64 (30 * 1000000000)) ∧
    wrapInt64 (30 * 1000000000) = 30000000000 :=
  have hs : isInt64 30 := by unfold isInt64; norm_num
  have t := C2_timeout_is_wrapped_seconds echoMeshes ListOptions.zero "" 30 hs
  ⟨hs, t.1, by unfold wrapInt64; norm_num⟩

end TimeoutClaims



/-! ## C3, C4, C6, C7, C10: the shape of the requests -/

section RequestShape

variable {X : Ext} {σ : Type}

/-- C3, refuted as stated: `Delete` encodes no query-parameter options at all (its
delete-options are the body), `DeleteCollection` encodes the list-options and not the
delete-options, `Watch` on options with the watch flag off does not encode them verbatim,
and `Get` with the empty name or `Patch` with the segment `a/b` encode no options. -/
theorem C3_delete_options_are_not_query_parameters :
    (echoMeshes.DeleteRequest "m" "grace=0").params = none ∧
    (echoMeshes.DeleteRequest "m" "grace=0").params ≠ some (Options.delete "grace=0") ∧
    (echoMeshes.DeleteCollectionRequest "grace=0" ListOptions.zero).params
      ≠ some (Options.delete "grace=0") ∧
    ListOptions.zero.Watch = false ∧
    (echoMeshes.WatchRequest ListOptions.zero).params ≠ some (Options.list ListOptions.zero) ∧
    (echoMeshes.GetRequest "" "rv=1").params = none ∧
    (echoMeshes.PatchRequest "m" "merge" [] "dry" ["a/b"]).params = none := by
  have hm : acceptedName "m" = true := by decide
  have he : acceptedName "" = false := by decide
  have hs : segmentsError ["a/b"] =
      some (RequestError.invalidSubresource "a/b" (IsValidPathSegmentName "a/b")) := by decide
  refine ⟨?_, ?_, ?_, rfl, ?_, ?_, ?_⟩
  · simp [DeleteRequest_eq, hm, Request.new]
  · simp [DeleteRequest_eq, hm, Request.new]
  · simp [DeleteCollectionRequest_eq]
  · simp [WatchRequest_eq, ListOptions.zero]
  · simp [GetRequest_eq, he, Request.new]
  · simp [PatchRequest_eq, hm, hs, Request.new]

/-- C3 (amended): `List` and `Create` pass the options object of the caller verbatim as the
query-parameter options of the request; so do `Get`, `Update`, `UpdateStatus` and `Patch`
whenever the request builder accepts the name (not empty, not `.` or `..`, without `/` and
`%`) and, for `Patch`, every sub-resource segment, and otherwise their request carries no
query-parameter options; `Watch` passes the list-options of the caller with the watch flag
set; `Delete` passes no query-parameter options and carries its delete-options as the
request body when the name is accepted (no body otherwise); `DeleteCollection` passes its
list-options as query-parameter options and carries its delete-options as the request
body. -/
theorem C3_options_propagation (c : meshes X σ) (name : String) (m : Mesh X)
    (g : X.GetOptions) (l : ListOptions) (cr : X.CreateOptions) (u : X.UpdateOptions)
    (d : X.DeleteOptions) (po : X.PatchOptions) (pt : X.PatchType) (data : ByteSlice)
    (ss : StringSlice) :
    (c.GetRequest name g).params
      = (if acceptedName name then some (Options.get g) else none) ∧
    (c.ListRequest l).params = some (Options.list l) ∧
    (c.CreateRequest m cr).params = some (Options.create cr) ∧
    (c.UpdateRequest m u).params
      = (if acceptedName m.ObjectMeta.Name then some (Options.update u) else none) ∧
    (c.UpdateStatusRequest m u).params
      = (if acceptedName m.ObjectMeta.Name then some (Options.update u) else none) ∧
    (c.PatchRequest name pt data po ss).params
      = (if acceptedName name && acceptedSegments ss then some (Options.patch po) else none) ∧
    (c.WatchRequest l).params = some (Options.list { l with Watch := true }) ∧
    ((c.DeleteRequest name d).params = none ∧
      (c.DeleteRequest name d).body
        = (if acceptedName name then some (Body.deleteOptions d) else none)) ∧
    ((c.DeleteCollectionRequest d l).params = some (Options.list l) ∧
      (c.DeleteCollectionRequest d l).body = some (Body.deleteOptions d)) := by
  refine ⟨?_, ?_, ?_, ?_, ?_, ?_, ?_, ⟨?_, ?_⟩, ⟨?_, ?_⟩⟩
  · rw [GetRequest_eq]; by_cases h : acceptedName name <;> simp [h, Request.new]
  · rw [ListRequest_eq]
  · rw [CreateRequest_eq]
  · rw [UpdateRequest_eq]
    by_cases h : acceptedName m.ObjectMeta.Name <;> simp [h, Request.new]
  · rw [UpdateStatusRequest_eq]
    by_cases h : acceptedName m.ObjectMeta.Name <;> simp [h, Request.new]
  · rw [PatchRequest_eq]
    by_cases h : acceptedName name
    · cases hs : segmentsError ss with
      | none =>
        have ha := (segmentsError_eq_none_iff ss).mp hs
        simp [h, hs, ha]
      | some e =>
        have ha : acceptedSegments ss = false := by
          cases hb : acceptedSegments ss with
          | false => rfl
          | true =>
            have hn := (segmentsError_eq_none_iff ss).mpr hb
            rw [hs] at hn
            cases hn
        simp [h, hs, ha, Request.new]
    · simp [h, Request.new]
  · rw [WatchRequest_eq]
  · rw [DeleteRequest_eq]; by_cases h : acceptedName name <;> simp [h, Request.new]
  · rw [DeleteRequest_eq]; by_cases h : acceptedName name <;> simp [h, Request.new]
  · rw [DeleteCollectionRequest_eq]
  · rw [DeleteCollectionRequest_eq]

/-- C4: the options `Watch` encodes are the options of the caller with the watch flag set to
true and every other field unchanged, whatever the flag was; `List` encodes the options of
the caller as they are, watch flag included. -/
theorem C4_watch_forces_flag_only (c : meshes X σ) (o : ListOptions) :
    (∃ w : ListOptions, (c.WatchRequest o).params = some (Options.list w) ∧
      w.Watch = true ∧
      w.LabelSelector = o.LabelSelector ∧ w.FieldSelector = o.FieldSelector ∧
      w.AllowWatchBookmarks = o.AllowWatchBookmarks ∧
      w.ResourceVersion = o.ResourceVersion ∧
      w.ResourceVersionMatch = o.ResourceVersionMatch ∧
      w.TimeoutSeconds = o.TimeoutSeconds ∧ w.Limit = o.Limit ∧ w.Continue = o.Continue ∧
      w = { o with Watch := true }) ∧
    (c.ListRequest o).params = some (Options.list o) :=
  ⟨⟨{ o with Watch := true }, by rw [WatchRequest_eq], rfl, rfl, rfl, rfl, rfl, rfl, rfl, rfl,
    rfl, rfl⟩, by rw [ListRequest_eq]⟩


/-- C6, refuted as stated: for the zero `Mesh`, whose metadata name is empty, the request of
`UpdateStatus` has no sub-resource segment at all; it is the request of `Update`, which
carries the error of `Name` and neither query options nor body. -/
theorem C6_update_status_unnamed_has_no_subresource :
    Mesh.zero.ObjectMeta.Name = "" ∧
    (echoMeshes.UpdateStatusRequest Mesh.zero "").subresource = [] ∧
    (echoMeshes.UpdateStatusRequest Mesh.zero "").subresource ≠ ["status"] ∧
    (echoMeshes.UpdateStatusRequest Mesh.zero "").params = none ∧
    (echoMeshes.UpdateStatusRequest Mesh.zero "").body = none ∧
    (echoMeshes.UpdateStatusRequest Mesh.zero "").err = some RequestError.resourceNameEmpty ∧
    echoMeshes.UpdateStatusRequest Mesh.zero "" = echoMeshes.UpdateRequest Mesh.zero "" := by
  have he : acceptedName Mesh.zero.ObjectMeta.Name = false := by decide
  have hn : nameError Mesh.zero.ObjectMeta.Name = RequestError.resourceNameEmpty := by decide
  refine ⟨rfl, ?_, ?_, ?_, ?_, ?_, ?_⟩ <;>
    simp [UpdateStatusRequest_eq, UpdateRequest_eq, he, hn, Request.new]

/-- C6 (amended): for every payload whose metadata name the request builder accepts (not
empty, not `.` or `..`, without `/` and `%`), the request of `UpdateStatus` is the request of
`Update` with the single sub-resource segment `"status"`: both are `PUT` on resource
`"meshes"`, named by the metadata name of the payload, with the update-options as query
options and the payload as body, and `Update` has no sub-resource segment. For any other
payload the two requests are one and the same: no name, no sub-resource, no query options,
no body, and the error recorded by `Name`. -/
theorem C6_update_status_is_update_on_status (c : meshes X σ) (m : Mesh X)
    (u : X.UpdateOptions) :
    (acceptedName m.ObjectMeta.Name = true →
      c.UpdateStatusRequest m u = { c.UpdateRequest m u with subresource := ["status"] } ∧
      (c.UpdateStatusRequest m u).subresource = ["status"] ∧
      (c.UpdateRequest m u).subresource = [] ∧
      (c.UpdateRequest m u).verb = Verb.PUT ∧
      (c.UpdateRequest m u).resource = "meshes" ∧
      (c.UpdateRequest m u).resourceName = m.ObjectMeta.Name ∧
      (c.UpdateRequest m u).params = some (Options.update u) ∧
      (c.UpdateRequest m u).body = some (Body.mesh m) ∧
      (c.UpdateRequest m u).err = none ∧
      (c.UpdateStatusRequest m u).verb = Verb.PUT ∧
      (c.UpdateStatusRequest m u).resource = "meshes" ∧
      (c.UpdateStatusRequest m u).resourceName = m.ObjectMeta.Name ∧
      (c.UpdateStatusRequest m u).params = some (Options.update u) ∧
      (c.UpdateStatusRequest m u).body = some (Body.mesh m) ∧
      (c.UpdateStatusRequest m u).err = none ∧
      (c.UpdateStatusRequest m u).timeout = (c.UpdateRequest m u).timeout ∧
      (c.UpdateStatusRequest m u).namespace_ = (c.UpdateRequest m u).namespace_ ∧
      (c.UpdateStatusRequest m u).patchType = (c.UpdateRequest m u).patchType) ∧
    (acceptedName m.ObjectMeta.Name = false →
      c.UpdateStatusRequest m u = c.UpdateRequest m u ∧
      (c.UpdateStatusRequest m u).verb = Verb.PUT ∧
      (c.UpdateStatusRequest m u).resource = "meshes" ∧
      (c.UpdateStatusRequest m u).resourceName = "" ∧
      (c.UpdateStatusRequest m u).subresource = [] ∧
      (c.UpdateStatusRequest m u).params = none ∧
      (c.UpdateStatusRequest m u).body = none ∧
      (c.UpdateStatusRequest m u).err = some (nameError m.ObjectMeta.Name)) := by
  constructor
  · intro h
    simp [UpdateStatusRequest_eq, UpdateRequest_eq, h, Request.new]
  · intro h
    simp [UpdateStatusRequest_eq, UpdateRequest_eq, h, Request.new]

/-- C6 (amended) on `Mesh.overfull`, named `big`, and on the zero `Mesh`, without name. -/
theorem C6_update_status_is_update_on_status_witness :
    acceptedName Mesh.overfull.ObjectMeta.Name = true ∧
    (echoMeshes.UpdateStatusRequest Mesh.overfull "").subresource = ["status"] ∧
    (echoMeshes.UpdateRequest Mesh.overfull "").subresource = [] ∧
    (echoMeshes.UpdateStatusRequest Mesh.overfull "").body = some (Body.mesh Mesh.overfull) ∧
    acceptedName Mesh.zero.ObjectMeta.Name = false ∧
    echoMeshes.UpdateStatusRequest Mesh.zero "" = echoMeshes.UpdateRequest Mesh.zero "" :=
  have a := (C6_update_status_is_update_on_status echoMeshes Mesh.overfull "").1 (by decide)
  have b := (C6_update_status_is_update_on_status echoMeshes Mesh.zero "").2 (by decide)
  ⟨by decide, a.2.1, a.2.2.1, a.2.2.2.2.2.2.2.2.2.2.2.2.2.1, by decide, b.1⟩

/-- C7, refuted as stated: with the segments `["", "status"]` the request of `Patch`
addresses the one segment `status`, not two; with the segment `a/b` it has no sub-resource
and neither query options nor body, only the error of `SubResource`; with the name `a/b` it has
no name and no body. -/
theorem C7_patch_segments_are_joined_and_checked :
    (echoMeshes.PatchRequest "m" "merge" [1, 2] "dry" ["", "status"]).subresource
      = ["status"] ∧
    (echoMeshes.PatchRequest "m" "merge" [1, 2] "dry" ["", "status"]).subresource.length
      ≠ ["", "status"].length ∧
    (echoMeshes.PatchRequest "m" "merge" [1, 2] "dry" ["a/b"]).subresource = [] ∧
    (echoMeshes.PatchRequest "m" "merge" [1, 2] "dry" ["a/b"]).params = none ∧
    (echoMeshes.PatchRequest "m" "merge" [1, 2] "dry" ["a/b"]).body = none ∧
    (echoMeshes.PatchRequest "m" "merge" [1, 2] "dry" ["a/b"]).err
      = some (RequestError.invalidSubresource "a/b" [PathSegmentFinding.mayNotContain '/']) ∧
    (echoMeshes.PatchRequest "a/b" "merge" [1, 2] "dry" []).resourceName = "" ∧
    (echoMeshes.PatchRequest "a/b" "merge" [1, 2] "dry" []).body = none := by
  have hm : acceptedName "m" = true := by decide
  have hb : acceptedName "a/b" = false := by decide
  have h1 : segmentsError ["", "status"] = none := by decide
  have h2 : segmentsError ["a/b"] =
      some (RequestError.invalidSubresource "a/b" [PathSegmentFinding.mayNotContain '/']) := by
    decide
  have hj : pathJoin ["", "status"] = ["status"] := by decide
  refine ⟨?_, ?_, ?_, ?_, ?_, ?_, ?_, ?_⟩ <;>
    simp [PatchRequest_eq, hm, hb, h1, h2, hj, Request.new]

/-- C7 (amended): the request of `Patch` is always `PATCH` with the given patch type on
resource `"meshes"`. When the request builder accepts the name (not empty, not `.` or `..`,
without `/` and `%`) and every sub-resource segment (not `.` or `..`, without `/` and `%`),
the request carries the given name, the non-empty segments in the order given (so exactly the
given list, with the same length, when no segment is empty, and no sub-resource for the empty
list), the patch-options as query options and the raw bytes as body, unchanged, and no
error. Otherwise it carries an error and no sub-resource, query options or body. -/
theorem C7_patch_request (c : meshes X σ) (name : String) (pt : X.PatchType)
    (data : ByteSlice) (opts : X.PatchOptions) (ss : StringSlice) :
    ((c.PatchRequest name pt data opts ss).verb = Verb.PATCH ∧
      (c.PatchRequest name pt data opts ss).patchType = some pt ∧
      (c.PatchRequest name pt data opts ss).resource = "meshes") ∧
    (acceptedName name = true → acceptedSegments ss = true →
      (c.PatchRequest name pt data opts ss).resourceName = name ∧
      (c.PatchRequest name pt data opts ss).subresource = ss.filter (fun s => s ≠ "") ∧
      ((∀ s ∈ ss, s ≠ "") →
        (c.PatchRequest name pt data opts ss).subresource = ss ∧
        (c.PatchRequest name pt data opts ss).subresource.length = ss.length) ∧
      (c.PatchRequest name pt data opts ss).params = some (Options.patch opts) ∧
      (c.PatchRequest name pt data opts ss).body = some (Body.bytes data) ∧
      (c.PatchRequest name pt data opts ss).err = none) ∧
    (acceptedName name = true →
      (c.PatchRequest name pt data opts []).subresource = [] ∧
      (c.PatchRequest name pt data opts []).body = some (Body.bytes data) ∧
      (c.PatchRequest name pt data opts []).err = none) ∧
    ((acceptedName name && acceptedSegments ss) = false →
      (c.PatchRequest name pt data opts ss).subresource = [] ∧
      (c.PatchRequest name pt data opts ss).params = none ∧
      (c.PatchRequest name pt data opts ss).body = none ∧
      (c.PatchRequest name pt data opts ss).err ≠ none) := by
  have hnil : segmentsError [] = none := rfl
  refine ⟨?_, ?_, ?_, ?_⟩
  · rw [PatchRequest_eq]
    by_cases h : acceptedName name
    · cases hs : segmentsError ss <;> simp [h, Request.new]
    · simp [h, Request.new]
  · intro hn hs
    have he := (segmentsError_eq_none_iff ss).mpr hs
    have hsub : (c.PatchRequest name pt data opts ss).subresource
        = ss.filter (fun s => s ≠ "") := by
      simp [PatchRequest_eq, hn, he, pathJoin]
    refine ⟨?_, hsub, ?_, ?_, ?_, ?_⟩
    · simp [PatchRequest_eq, hn, he]
    · intro hne
      have hf : ss.filter (fun s => s ≠ "") = ss := by
        apply List.filter_eq_self.mpr
        intro s hmem
        simpa using hne s hmem
      rw [hsub, hf]
      exact ⟨rfl, rfl⟩
    · simp [PatchRequest_eq, hn, he]
    · simp [PatchRequest_eq, hn, he]
    · simp [PatchRequest_eq, hn, he, Request.new]
  · intro hn
    simp [PatchRequest_eq, hn, hnil, pathJoin, Request.new]
  · intro hf
    rw [PatchRequest_eq]
    by_cases h : acceptedName name
    · have ha : acceptedSegments ss = false := by simpa [h] using hf
      cases hs : segmentsError ss with
      | none =>
        have := (segmentsError_eq_none_iff ss).mp hs
        rw [ha] at this
        cases this
      | some e => simp [h, Request.new]
    · simp [h, Request.new]

/-- C7 (amended) on the name `m` with the segments `["status", "scale"]`. -/
theorem C7_patch_request_witness :
    acceptedName "m" = true ∧ acceptedSegments ["status", "scale"] = true ∧
    (echoMeshes.PatchRequest "m" "merge" [1, 2] "dry" ["status", "scale"]).subresource
      = ["status", "scale"] ∧
    (echoMeshes.PatchRequest "m" "merge" [1, 2] "dry" ["status", "scale"]).body
      = some (Body.bytes [1, 2]) ∧
    (echoMeshes.PatchRequest "m" "merge" [1, 2] "dry" []).subresource = [] :=
  have t := C7_patch_request echoMeshes "m" "merge" [1, 2] "dry" ["status", "scale"]
  have a := t.2.1 (by decide) (by decide)
  ⟨by decide, by decide, (a.2.2.1 (by decide)).1, a.2.2.2.2.1, (t.2.2.1 (by decide)).1⟩

/-- C10, refuted as stated: `Get`, `Delete` and `Patch` with the name `a/b`, and `Update`
on a payload named `..`, build a request with no name, not with the name given. -/
theorem C10_refused_name_is_not_carried :
    (echoMeshes.GetRequest "a/b" "rv=1").resourceName = "" ∧
    (echoMeshes.DeleteRequest "a/b" "grace=0").resourceName = "" ∧
    (echoMeshes.PatchRequest "a/b" "merge" [] "dry" []).resourceName = "" ∧
    (echoMeshes.UpdateRequest
      { Mesh.zero with ObjectMeta := { Mesh.zero.ObjectMeta with Name := ".." } }
      "").resourceName = "" ∧
    (echoMeshes.GetRequest "a/b" "rv=1").err
      = some (RequestError.invalidResourceName "a/b" [PathSegmentFinding.mayNotContain '/']) := by
  have hb : acceptedName "a/b" = false := by decide
  have hd : acceptedName ".." = false := by decide
  have hn : nameError "a/b"
      = RequestError.invalidResourceName "a/b" [PathSegmentFinding.mayNotContain '/'] := by
    decide
  refine ⟨?_, ?_, ?_, ?_, ?_⟩
  · simp [GetRequest_eq, hb, Request.new]
  · simp [DeleteRequest_eq, hb, Request.new]
  · simp [PatchRequest_eq, hb, Request.new]
  · simp [UpdateRequest_eq, hd, Request.new]
  · simp [GetRequest_eq, hb, hn, Request.new]

/-- C10 (amended): every request addresses the collection `"meshes"` with no namespace, and
its verb is fixed by the operation: `GET` for `Get`, `List` and `Watch`, `POST` for `Create`,
`PUT` for `Update` and `UpdateStatus`, `DELETE` for `Delete` and `DeleteCollection`, `PATCH`
for `Patch`. `List`, `Watch`, `Create` and `DeleteCollection` carry no name. `Get`, `Delete`
and `Patch` carry the given name, `Update` and `UpdateStatus` the metadata name of the
payload, whenever the request builder accepts that name (not empty, not `.` or `..`, without
`/` and `%`); otherwise the request carries no name. -/
theorem C10_verb_resource_name (c : meshes X σ) (name : String) (m : Mesh X)
    (g : X.GetOptions) (l : ListOptions) (cr : X.CreateOptions) (u : X.UpdateOptions)
    (d : X.DeleteOptions) (po : X.PatchOptions) (pt : X.PatchType) (data : ByteSlice)
    (ss : StringSlice) :
    ((c.GetRequest name g).resource = "meshes" ∧ (c.GetRequest name g).namespace_ = none ∧
      (c.GetRequest name g).verb = Verb.GET ∧
      (c.GetRequest name g).resourceName = (if acceptedName name then name else "")) ∧
    ((c.ListRequest l).resource = "meshes" ∧ (c.ListRequest l).namespace_ = none ∧
      (c.ListRequest l).verb = Verb.GET ∧ (c.ListRequest l).resourceName = "") ∧
    ((c.WatchRequest l).resource = "meshes" ∧ (c.WatchRequest l).namespace_ = none ∧
      (c.WatchRequest l).verb = Verb.GET ∧ (c.WatchRequest l).resourceName = "") ∧
    ((c.CreateRequest m cr).resource = "meshes" ∧
      (c.CreateRequest m cr).namespace_ = none ∧
      (c.CreateRequest m cr).verb = Verb.POST ∧ (c.CreateRequest m cr).resourceName = "") ∧
    ((c.UpdateRequest m u).resource = "meshes" ∧ (c.UpdateRequest m u).namespace_ = none ∧
      (c.UpdateRequest m u).verb = Verb.PUT ∧
      (c.UpdateRequest m u).resourceName
        = (if acceptedName m.ObjectMeta.Name then m.ObjectMeta.Name else "")) ∧
    ((c.UpdateStatusRequest m u).resource = "meshes" ∧
      (c.UpdateStatusRequest m u).namespace_ = none ∧
      (c.UpdateStatusRequest m u).verb = Verb.PUT ∧
      (c.UpdateStatusRequest m u).resourceName
        = (if acceptedName m.ObjectMeta.Name then m.ObjectMeta.Name else "")) ∧
    ((c.DeleteRequest name d).resource = "meshes" ∧
      (c.DeleteRequest name d).namespace_ = none ∧
      (c.DeleteRequest name d).verb = Verb.DELETE ∧
      (c.DeleteRequest name d).resourceName = (if acceptedName name then name else "")) ∧
    ((c.DeleteCollectionRequest d l).resource = "meshes" ∧
      (c.DeleteCollectionRequest d l).namespace_ = none ∧
      (c.DeleteCollectionRequest d l).verb = Verb.DELETE ∧
      (c.DeleteCollectionRequest d l).resourceName = "") ∧
    ((c.PatchRequest name pt data po ss).resource = "meshes" ∧
      (c.PatchRequest name pt data po ss).namespace_ = none ∧
      (c.PatchRequest name pt data po ss).verb = Verb.PATCH ∧
      (c.PatchRequest name pt data po ss).resourceName
        = (if acceptedName name then name else "")) := by
  refine ⟨?_, ?_, ?_, ?_, ?_, ?_, ?_, ?_, ?_⟩
  · rw [GetRequest_eq]; by_cases h : acceptedName name <;> simp [h, Request.new]
  · rw [ListRequest_eq]; simp [Request.new]
  · rw [WatchRequest_eq]; simp [Request.new]
  · rw [CreateRequest_eq]; simp [Request.new]
  · rw [UpdateRequest_eq]
    by_cases h : acceptedName m.ObjectMeta.Name <;> simp [h, Request.new]
  · rw [UpdateStatusRequest_eq]
    by_cases h : acceptedName m.ObjectMeta.Name <;> simp [h, Request.new]
  · rw [DeleteRequest_eq]; by_cases h : acceptedName name <;> simp [h, Request.new]
  · rw [DeleteCollectionRequest_eq]; simp [Request.new]
  · rw [PatchRequest_eq]
    by_cases h : acceptedName name
    · cases hs : segmentsError ss <;> simp [h, Request.new]
    · simp [h, Request.new]

end RequestShape

/-! ## C5: the options of the caller of `Watch` -/

section CallerOptions

variable {X : Ext} {σ : Type}

/-- C5: `Watch` does not change the options held by its caller. With the variable of the
caller at an address in use, after the call that variable (and every other variable that
existed before the call) holds the value it held before, watch flag included, whatever the
executor returns; the call itself behaves as `Watch` on the value of that variable. -/
theorem C5_watch_keeps_caller_options (c : meshes X σ) (ctx : X.Context) (a : Nat)
    (st : OptsStore) (s : σ) (ha : a < st.next) :
    (c.WatchCall ctx a st s).2.cell a = st.cell a ∧
    (∀ b, b < st.next → (c.WatchCall ctx a st s).2.cell b = st.cell b) ∧
    ((st.cell a).Watch = false → ((c.WatchCall ctx a st s).2.cell a).Watch = false) ∧
    (c.WatchCall ctx a st s).1 = c.Watch ctx (st.cell a) s := by
  have frame : ∀ b, b < st.next → (c.WatchCall ctx a st s).2.cell b = st.cell b := by
    intro b hb
    have hne : b ≠ st.next := Nat.ne_of_lt hb
    simp [meshes.WatchCall, OptsStore.alloc, OptsStore.write, hne]
  refine ⟨frame a ha, frame, ?_, ?_⟩
  · intro hw
    rw [frame a ha]
    exact hw
  · simp [meshes.WatchCall, meshes.Watch, meshes.WatchRequest, OptsStore.alloc,
      OptsStore.write]

/-- C5 on `OptsStore.single`: the caller passed `Watch = false` and still holds it, while the
parameter of `Watch`, at address `1`, has the flag set. -/
theorem C5_watch_keeps_caller_options_witness :
    0 < OptsStore.single.next ∧
    ((echoMeshes.WatchCall () 0 OptsStore.single ()).2.cell 0).Watch = false ∧
    ((echoMeshes.WatchCall () 0 OptsStore.single ()).2.cell 1).Watch = true :=
  have t := C5_watch_keeps_caller_options echoMeshes () 0 OptsStore.single ()
    (by decide)
  ⟨by decide, t.2.2.1 rfl, rfl⟩

end CallerOptions

/-! ## C8, C9: what reaches the executor and what comes back -/

section Executor

variable {X : Ext} {σ : Type}

/-- C8: each of the nine operations sends exactly one request to the executor (the journal of
the observed executor grows by exactly that one request, and the state of the executor
advances by exactly one `Do` or `Watch`), and the error it returns is the error the executor
reports for that request, unchanged: an error when the executor reports one, none when it
reports none. -/
theorem C8_one_invocation_error_passthrough (c : meshes X σ) (ctx : X.Context) (name : String)
    (m : Mesh X) (g : X.GetOptions) (l : ListOptions) (cr : X.CreateOptions)
    (u : X.UpdateOptions) (d : X.DeleteOptions) (po : X.PatchOptions) (pt : X.PatchType)
    (data : ByteSlice) (ss : StringSlice) (s : σ) (j : Journal X) :
    ((c.logged.Get ctx name g (s, j)).2
        = ((c.client.Do ctx (c.GetRequest name g) s).2, j ++ [c.GetRequest name g]) ∧
      (c.Get ctx name g s).1.2
        = (c.client.IntoMesh (c.client.Do ctx (c.GetRequest name g) s).1).2) ∧
    ((c.logged.List ctx l (s, j)).2
        = ((c.client.Do ctx (c.ListRequest l) s).2, j ++ [c.ListRequest l]) ∧
      (c.List ctx l s).1.2
        = (c.client.IntoMeshList (c.client.Do ctx (c.ListRequest l) s).1).2) ∧
    ((c.logged.Watch ctx l (s, j)).2
        = ((c.client.Watch ctx (c.WatchRequest l) s).2, j ++ [c.WatchRequest l]) ∧
      (c.Watch ctx l s).1.2 = (c.client.Watch ctx (c.WatchRequest l) s).1.2) ∧
    ((c.logged.Create ctx m cr (s, j)).2
        = ((c.client.Do ctx (c.CreateRequest m cr) s).2, j ++ [c.CreateRequest m cr]) ∧
      (c.Create ctx m cr s).1.2
        = (c.client.IntoMesh (c.client.Do ctx (c.CreateRequest m cr) s).1).2) ∧
    ((c.logged.Update ctx m u (s, j)).2
        = ((c.client.Do ctx (c.UpdateRequest m u) s).2, j ++ [c.UpdateRequest m u]) ∧
      (c.Update ctx m u s).1.2
        = (c.client.IntoMesh (c.client.Do ctx (c.UpdateRequest m u) s).1).2) ∧
    ((c.logged.UpdateStatus ctx m u (s, j)).2
        = ((c.client.Do ctx (c.UpdateStatusRequest m u) s).2,
            j ++ [c.UpdateStatusRequest m u]) ∧
      (c.UpdateStatus ctx m u s).1.2
        = (c.client.IntoMesh (c.client.Do ctx (c.UpdateStatusRequest m u) s).1).2) ∧
    ((c.logged.Delete ctx name d (s, j)).2
        = ((c.client.Do ctx (c.DeleteRequest name d) s).2, j ++ [c.DeleteRequest name d]) ∧
      (c.Delete ctx name d s).1
        = c.client.Error (c.client.Do ctx (c.DeleteRequest name d) s).1) ∧
    ((c.logged.DeleteCollection ctx d l (s, j)).2
        = ((c.client.Do ctx (c.DeleteCollectionRequest d l) s).2,
            j ++ [c.DeleteCollectionRequest d l]) ∧
      (c.DeleteCollection ctx d l s).1
        = c.client.Error (c.client.Do ctx (c.DeleteCollectionRequest d l) s).1) ∧
    ((c.logged.Patch ctx name pt data po ss (s, j)).2
        = ((c.client.Do ctx (c.PatchRequest name pt data po ss) s).2,
            j ++ [c.PatchRequest name pt data po ss]) ∧
      (c.Patch ctx name pt data po ss s).1.2
        = (c.client.IntoMesh (c.client.Do ctx (c.PatchRequest name pt data po ss) s).1).2) :=
  ⟨⟨rfl, rfl⟩, ⟨rfl, rfl⟩, ⟨rfl, rfl⟩, ⟨rfl, rfl⟩, ⟨rfl, rfl⟩, ⟨rfl, rfl⟩, ⟨rfl, rfl⟩,
    ⟨rfl, rfl⟩, ⟨rfl, rfl⟩⟩

/-- C9, refuted as stated: `Update` and `UpdateStatus` refuse a payload locally on its
metadata name. For the zero `Mesh` (empty name) and for a payload named `a/b` the request
they build has no body and carries the error of `Name`. -/
theorem C9_update_refuses_unaccepted_name :
    (echoMeshes.UpdateRequest Mesh.zero "").body = none ∧
    (echoMeshes.UpdateRequest Mesh.zero "").err = some RequestError.resourceNameEmpty ∧
    (echoMeshes.UpdateStatusRequest Mesh.zero "").body = none ∧
    (echoMeshes.UpdateStatusRequest Mesh.zero "").err = some RequestError.resourceNameEmpty ∧
    (echoMeshes.UpdateRequest
      { Mesh.overfull with ObjectMeta := { Mesh.overfull.ObjectMeta with Name := "a/b" } }
      "").body = none ∧
    (echoMeshes.UpdateRequest
      { Mesh.overfull with ObjectMeta := { Mesh.overfull.ObjectMeta with Name := "a/b" } }
      "").err
      = some (RequestError.invalidResourceName "a/b" [PathSegmentFinding.mayNotContain '/']) := by
  have he : acceptedName Mesh.zero.ObjectMeta.Name = false := by decide
  have hn : nameError Mesh.zero.ObjectMeta.Name = RequestError.resourceNameEmpty := by decide
  have hb : acceptedName "a/b" = false := by decide
  have hm : nameError "a/b"
      = RequestError.invalidResourceName "a/b" [PathSegmentFinding.mayNotContain '/'] := by
    decide
  refine ⟨?_, ?_, ?_, ?_, ?_, ?_⟩ <;>
    simp [UpdateStatusRequest_eq, UpdateRequest_eq, he, hn, hb, hm, Request.new]

/-- C9 (amended): the client checks nothing about the spec or the status conditions of a
payload. `Create` puts every payload into the request body as it is and records no error.
`Update` and `UpdateStatus` do so exactly for the payloads whose metadata name the request
builder accepts (not empty, not `.` or `..`, without `/` and `%`): then the body is the
payload as it is (same spec, same condition records in the same order) and no error is
recorded; for any other name the request has no body and carries the error of `Name`. Whether
a payload is refused depends on its metadata name only: replacing its spec and status changes
nothing. In every case the request built is sent to the executor once and what the operation
returns is what the executor reports. `Mesh.overfull`, named `big`, has nine condition records
of one type and a description of 65 characters, and is carried. -/
theorem C9_payload_is_carried_unchecked (c : meshes X σ) (ctx : X.Context) (m : Mesh X)
    (cr : X.CreateOptions) (u : X.UpdateOptions) (sp : MeshSpec) (st : MeshStatus) (s : σ)
    (j : Journal X) :
    ((c.CreateRequest m cr).body = some (Body.mesh m) ∧
      (c.CreateRequest m cr).err = none ∧
      (c.logged.Create ctx m cr (s, j)).2.2 = j ++ [c.CreateRequest m cr] ∧
      (c.Create ctx m cr s).1 = c.client.IntoMesh (c.client.Do ctx (c.CreateRequest m cr) s).1) ∧
    ((c.UpdateRequest m u).body
        = (if acceptedName m.ObjectMeta.Name then some (Body.mesh m) else none) ∧
      (c.UpdateRequest m u).err
        = (if acceptedName m.ObjectMeta.Name then none
            else some (nameError m.ObjectMeta.Name)) ∧
      (c.UpdateRequest { m with Spec := sp, Status := st } u).err = (c.UpdateRequest m u).err ∧
      (c.logged.Update ctx m u (s, j)).2.2 = j ++ [c.UpdateRequest m u] ∧
      (c.Update ctx m u s).1 = c.client.IntoMesh (c.client.Do ctx (c.UpdateRequest m u) s).1) ∧
    ((c.UpdateStatusRequest m u).body
        = (if acceptedName m.ObjectMeta.Name then some (Body.mesh m) else none) ∧
      (c.UpdateStatusRequest m u).err
        = (if acceptedName m.ObjectMeta.Name then none
            else some (nameError m.ObjectMeta.Name)) ∧
      (c.UpdateStatusRequest { m with Spec := sp, Status := st } u).err
        = (c.UpdateStatusRequest m u).err ∧
      (c.logged.UpdateStatus ctx m u (s, j)).2.2 = j ++ [c.UpdateStatusRequest m u] ∧
      (c.UpdateStatus ctx m u s).1
        = c.client.IntoMesh (c.client.Do ctx (c.UpdateStatusRequest m u) s).1) ∧
    (8 < Mesh.overfull.Status.Conditions.length ∧
      ¬ (Mesh.overfull.Status.Conditions.map Condition.Type_).Nodup ∧
      (∃ text, Mesh.overfull.Spec.Description = some text ∧ 64 < text.length) ∧
      (echoMeshes.CreateRequest Mesh.overfull "").body = some (Body.mesh Mesh.overfull) ∧
      (echoMeshes.UpdateRequest Mesh.overfull "").body = some (Body.mesh Mesh.overfull) ∧
      (echoMeshes.UpdateStatusRequest Mesh.overfull "").body
        = some (Body.mesh Mesh.overfull)) := by
  have hbig : acceptedName Mesh.overfull.ObjectMeta.Name = true := by decide
  refine ⟨⟨?_, ?_, rfl, rfl⟩, ⟨?_, ?_, ?_, rfl, rfl⟩, ⟨?_, ?_, ?_, rfl, rfl⟩, ?_, ?_,
    ⟨_, rfl, ?_⟩, ?_, ?_, ?_⟩
  · rw [CreateRequest_eq]
  · rw [CreateRequest_eq]; simp [Request.new]
  · rw [UpdateRequest_eq]
    by_cases h : acceptedName m.ObjectMeta.Name <;> simp [h, Request.new]
  · rw [UpdateRequest_eq]
    by_cases h : acceptedName m.ObjectMeta.Name <;> simp [h, Request.new]
  · rw [UpdateRequest_eq, UpdateRequest_eq]
    by_cases h : acceptedName m.ObjectMeta.Name <;> simp [h, Request.new]
  · rw [UpdateStatusRequest_eq]
    by_cases h : acceptedName m.ObjectMeta.Name <;> simp [h, Request.new]
  · rw [UpdateStatusRequest_eq]
    by_cases h : acceptedName m.ObjectMeta.Name <;> simp [h, Request.new]
  · rw [UpdateStatusRequest_eq, UpdateStatusRequest_eq]
    by_cases h : acceptedName m.ObjectMeta.Name <;> simp [h, Request.new]
  · decide
  · decide
  · decide
  · rw [CreateRequest_eq]
  · rw [UpdateRequest_eq]; simp [hbig]
  · rw [UpdateStatusRequest_eq]; simp [hbig]

end Executor

end GatewayAPI
